import Mathlib

/-!
# viamgpsd: the gpsd-backed movement sensor

A shallow embedding of `movementsensor.go`.  The sensor is a struct guarded by one
mutex; the gpsd session delivers TPV reports to a filter callback that overwrites the
cached report, and the read methods return the cached fields together with the result
of the staleness check `tooOld`.

Conventions of the embedding:

* an instant (`time.Time`) is an integer count of nanoseconds after the zero instant
  `time.Time{}`; the wall and monotonic readings of `time.Now()` are identified, and the
  clock reading that a method obtains is passed to it as the argument `now`;
* a `time.Duration` is an integer count of nanoseconds, and `Time.Sub` saturates at the
  int64 bounds as the Go runtime does;
* a `float64` is carried as its IEEE-754 bit pattern (the code only copies floats);
* every method is a computation over the sensor's fields that also tracks whether the
  mutex is held and records each access to a guarded field.
-/

namespace viamgpsd

/-! ## Values -/

/-- A Go `float64`, carried as its IEEE-754 bit pattern; the zero value is `+0`. -/
structure float64 where
  bits : Nat
  deriving DecidableEq, Repr

/-- The zero value of `float64`. -/
def float64.zero : float64 := ⟨0⟩

/-- An instant: nanoseconds after the zero instant `time.Time{}`. -/
abbrev Time := Int

/-- A `time.Duration`: a count of nanoseconds. -/
abbrev Duration := Int

/-- The zero value `time.Time{}`. -/
def time.zeroTime : Time := 0

/-- Largest `time.Duration` (`1<<63 - 1`). -/
def time.maxDuration : Duration := 9223372036854775807

/-- Smallest `time.Duration` (`-1 << 63`). -/
def time.minDuration : Duration := -9223372036854775808

/-- One second, `time.Second`. -/
def time.Second : Duration := 1000000000

/-- One minute, `time.Minute = 60 * Second`. -/
def time.Minute : Duration := 60 * time.Second

/-- The duration `t - u` of `Time.Sub`, saturated at the int64 bounds. -/
def time.Sub (t u : Time) : Duration :=
  if t - u > time.maxDuration then time.maxDuration
  else if t - u < time.minDuration then time.minDuration
  else t - u

/-- The elapsed time `time.Since(t)` when the clock reads `now`. -/
def time.Since (now t : Time) : Duration := time.Sub now t

/-- The dynamic value of an `interface{}`: nil, a value of a predeclared type, or a
value of a named (defined) type. -/
inductive GoValue where
  | nil
  | bool (b : Bool)
  | int (i : Int)
  | float (f : float64)
  | string (s : String)
  | named (typ : String) (v : GoValue)
  deriving DecidableEq, Repr

/-- The comparison `v == true` of an interface value with the constant `true`: it holds
exactly when the dynamic type is `bool` and the value is true. -/
def GoValue.eqTrue : GoValue → Bool
  | .bool true => true
  | _ => false

/-- A `map[string]interface{}`: `none` is the nil map, `some kvs` a map with the listed
entries (the first entry of a key is the one the map holds). -/
abbrev Extra := Option (List (String × GoValue))

/-- The index expression `m[k]` on a non-nil map; a missing key gives the nil interface. -/
def mapIndex (kvs : List (String × GoValue)) (k : String) : GoValue :=
  match kvs.lookup k with
  | some v => v
  | none => GoValue.nil

/-- A Go `error`: nil, the sentinel `data.ErrNoCaptureToStore`, or a fresh error made
by `fmt.Errorf` carrying its message. -/
inductive GoError where
  | nil
  | ErrNoCaptureToStore
  | errorf (msg : String)
  deriving DecidableEq, Repr

/-- What the code takes from the packages it imports: the key `data.FromDMString` and
the `%v` renderings of an instant and of a map. -/
structure Env where
  FromDMString : String
  fmtTime : Time → String
  fmtExtra : Extra → String

/-- A `gpsd.TPVReport`: the fields the sensor reads. -/
structure gpsd.TPVReport where
  Lat : float64
  Lon : float64
  Alt : float64
  Track : float64
  Speed : float64
  deriving DecidableEq, Repr

/-- The zero value `gpsd.TPVReport{}`. -/
def gpsd.TPVReport.zero : gpsd.TPVReport :=
  { Lat := float64.zero, Lon := float64.zero, Alt := float64.zero,
    Track := float64.zero, Speed := float64.zero }

/-- The capability flags `movementsensor.Properties` the sensor sets. -/
structure movementsensor.Properties where
  PositionSupported : Bool
  CompassHeadingSupported : Bool
  LinearVelocitySupported : Bool
  deriving DecidableEq, Repr

/-- The zero value `movementsensor.Properties{}`. -/
def movementsensor.Properties.zero : movementsensor.Properties :=
  { PositionSupported := false, CompassHeadingSupported := false,
    LinearVelocitySupported := false }

/-- A `geo.Point` as built by `geo.NewPoint(lat, lng)`. -/
structure geo.Point where
  lat : float64
  lng : float64
  deriving DecidableEq, Repr

/-- The constructor `geo.NewPoint`. -/
def geo.NewPoint (lat lng : float64) : geo.Point := { lat := lat, lng := lng }

/-- An `r3.Vector`. -/
structure r3.Vector where
  X : float64
  Y : float64
  Z : float64
  deriving DecidableEq, Repr

/-- A `spatialmath.AngularVelocity`. -/
structure spatialmath.AngularVelocity where
  X : float64
  Y : float64
  Z : float64
  deriving DecidableEq, Repr

/-- A `spatialmath.EulerAngles`. -/
structure spatialmath.EulerAngles where
  Roll : float64
  Pitch : float64
  Yaw : float64
  deriving DecidableEq, Repr

/-- A `gpsd.Session`: the report classes with a registered filter, whether the watcher
runs, and whether the connection was closed. -/
structure gpsd.Session where
  filters : List String
  watching : Bool
  closed : Bool
  deriving DecidableEq, Repr

/-- The outcome of `gpsd.Dial`: a connected session, or the dial error's text (the
session pointer is then nil). -/
abbrev DialResult := Except String gpsd.Session

/-! ## The sensor -/

/-- The struct `mySensor` without its logger; the state of the mutex `mu` is tracked
by the running method (see `Exec`). -/
structure mySensor where
  name : String
  prop : movementsensor.Properties
  session : Option gpsd.Session
  lastData : Time
  tpv : gpsd.TPVReport
  deriving DecidableEq, Repr

/-- The fields the mutex guards. -/
inductive Field where
  | prop
  | lastData
  | tpv
  deriving DecidableEq, Repr

/-- How a method touches a guarded field: it loads it, stores to it, or takes its
address and hands the pointer to the caller. -/
inductive AccessKind where
  | read
  | write
  | addr
  deriving DecidableEq, Repr

/-- One access to a guarded field, with whether the mutex was held at that point. -/
structure Access where
  kind : AccessKind
  field : Field
  held : Bool
  deriving DecidableEq, Repr

/-- A running method: the sensor's fields, whether this method holds `s.mu`, and the
accesses to guarded fields made so far. -/
structure Exec where
  s : mySensor
  held : Bool
  trace : List Access
  deriving DecidableEq, Repr

/-- A method body: it either produces a value and a new execution state, or does not
return (`none`: a panic, a fatal error, or blocking forever). -/
def Op (α : Type) : Type := Exec → Option (α × Exec)

/-- Sequencing of method bodies. -/
def Op.bind {α β : Type} (m : Op α) (f : α → Op β) : Op β := fun e =>
  match m e with
  | none => none
  | some (a, e') => f a e'

/-- A body that only returns a value. -/
def Op.pure {α : Type} (a : α) : Op α := fun e => some (a, e)

instance : Monad Op where
  pure := Op.pure
  bind := Op.bind

/-- The call `s.mu.Lock()`; locking a mutex this method already holds blocks forever. -/
def Lock : Op Unit := fun e =>
  if e.held then none else some ((), { e with held := true })

/-- The call `s.mu.Unlock()`; unlocking a mutex that is not locked is a fatal error. -/
def Unlock : Op Unit := fun e =>
  if e.held then some ((), { e with held := false }) else none

/-- Record an access to a guarded field. -/
def touch (k : AccessKind) (f : Field) : Op Unit := fun e =>
  some ((), { e with trace := e.trace ++ [{ kind := k, field := f, held := e.held }] })

/-- Load `s.tpv`. -/
def loadTpv : Op gpsd.TPVReport := fun e =>
  (touch AccessKind.read Field.tpv e).map fun p => (e.s.tpv, p.2)

/-- Load `s.lastData`. -/
def loadLastData : Op Time := fun e =>
  (touch AccessKind.read Field.lastData e).map fun p => (e.s.lastData, p.2)

/-- Store to `s.prop.PositionSupported`. -/
def storePositionSupported (b : Bool) : Op Unit := fun e =>
  (touch AccessKind.write Field.prop e).map fun p =>
    ((), { p.2 with s := { p.2.s with prop := { p.2.s.prop with PositionSupported := b } } })

/-- Store to `s.prop.CompassHeadingSupported`. -/
def storeCompassHeadingSupported (b : Bool) : Op Unit := fun e =>
  (touch AccessKind.write Field.prop e).map fun p =>
    ((), { p.2 with
            s := { p.2.s with prop := { p.2.s.prop with CompassHeadingSupported := b } } })

/-- Store to `s.prop.LinearVelocitySupported`. -/
def storeLinearVelocitySupported (b : Bool) : Op Unit := fun e =>
  (touch AccessKind.write Field.prop e).map fun p =>
    ((), { p.2 with
            s := { p.2.s with prop := { p.2.s.prop with LinearVelocitySupported := b } } })

/-- Store to `s.lastData`. -/
def storeLastData (t : Time) : Op Unit := fun e =>
  (touch AccessKind.write Field.lastData e).map fun p =>
    ((), { p.2 with s := { p.2.s with lastData := t } })

/-- Store to `s.tpv`. -/
def storeTpv (r : gpsd.TPVReport) : Op Unit := fun e =>
  (touch AccessKind.write Field.tpv e).map fun p =>
    ((), { p.2 with s := { p.2.s with tpv := r } })

/-- A `*movementsensor.Properties`: nil, or the address of the sensor's `prop` field. -/
inductive PropertiesPtr where
  | nil
  | sensorProp
  deriving DecidableEq, Repr

/-- The expression `&s.prop`: the address of the guarded field leaves the method. -/
def addrProp : Op PropertiesPtr := fun e =>
  (touch AccessKind.addr Field.prop e).map fun p => (PropertiesPtr.sensorProp, p.2)

/-- What a holder of the pointer sees when it dereferences it while the sensor is in
state `s`; a nil pointer cannot be dereferenced. -/
def PropertiesPtr.load (p : PropertiesPtr) (s : mySensor) : Option movementsensor.Properties :=
  match p with
  | PropertiesPtr.nil => none
  | PropertiesPtr.sensorProp => some s.prop

/-- The method `tooOld`, called with the mutex held by `Position`, `LinearVelocity`
and `CompassHeading`. -/
def tooOld (env : Env) (now : Time) (extra : Extra) : Op GoError := do
  let last ← loadLastData
  if time.Since now last < time.Minute then
    return GoError.nil
  let fromDM :=
    match extra with
    | none => false
    | some kvs => (mapIndex kvs env.FromDMString).eqTrue
  if fromDM then
    return GoError.ErrNoCaptureToStore
  let last2 ← loadLastData
  return GoError.errorf
    ("lastUpdate update too old: " ++ env.fmtTime last2 ++ " (" ++ env.fmtExtra extra ++ ")")

/-- The filter registered for `TPV` reports in `start`, run when the session delivers
report `r` while the clock reads `now` (the session hands a `*gpsd.TPVReport` to the
filters of class `TPV`, so the type assertion succeeds). -/
def tpvFilter (now : Time) (r : gpsd.TPVReport) : Op Unit := do
  Lock
  storePositionSupported true
  storeCompassHeadingSupported true
  storeLinearVelocitySupported true
  storeLastData now
  storeTpv r
  Unlock

/-- The method `Position`. -/
def Position (env : Env) (now : Time) (extra : Extra) : Op (geo.Point × float64 × GoError) := do
  Lock
  let lat := (← loadTpv).Lat
  let lon := (← loadTpv).Lon
  let alt := (← loadTpv).Alt
  let err ← tooOld env now extra
  Unlock
  return (geo.NewPoint lat lon, alt, err)

/-- The method `LinearVelocity`. -/
def LinearVelocity (env : Env) (now : Time) (extra : Extra) : Op (r3.Vector × GoError) := do
  Lock
  let speed := (← loadTpv).Speed
  let err ← tooOld env now extra
  Unlock
  return ({ X := float64.zero, Y := speed, Z := float64.zero }, err)

/-- The method `AngularVelocity`. -/
def AngularVelocity (_extra : Extra) : Op (spatialmath.AngularVelocity × GoError) :=
  return ({ X := float64.zero, Y := float64.zero, Z := float64.zero }, GoError.nil)

/-- The method `LinearAcceleration`. -/
def LinearAcceleration (_extra : Extra) : Op (r3.Vector × GoError) :=
  return ({ X := float64.zero, Y := float64.zero, Z := float64.zero }, GoError.nil)

/-- The method `CompassHeading`. -/
def CompassHeading (env : Env) (now : Time) (extra : Extra) : Op (float64 × GoError) := do
  Lock
  let track := (← loadTpv).Track
  let err ← tooOld env now extra
  Unlock
  return (track, err)

/-- The method `Orientation`: a pointer to a fresh zero `EulerAngles`. -/
def Orientation (_extra : Extra) : Op (spatialmath.EulerAngles × GoError) :=
  return ({ Roll := float64.zero, Pitch := float64.zero, Yaw := float64.zero }, GoError.nil)

/-- The method `Properties`. -/
def Properties (_extra : Extra) : Op (PropertiesPtr × GoError) := do
  let p ← addrProp
  return (p, GoError.nil)

/-- The method `Accuracy`: a nil `map[string]float32`. -/
def Accuracy (_extra : Extra) : Op (Option (List (String × float64)) × GoError) :=
  return (none, GoError.nil)

/-- The method `DoCommand`: a nil map. -/
def DoCommand (_cmd : Extra) : Op (Extra × GoError) :=
  return (none, GoError.nil)

/-- The method `Close`: `s.session.Close()` closes the connection and returns what the
connection's close returned; on a nil session it dereferences a nil pointer. -/
def Close (closeErr : GoError) : Op GoError := fun e =>
  match e.s.session with
  | none => none
  | some ss => some (closeErr, { e with s := { e.s with session := some { ss with closed := true } } })

/-- Run a method on the sensor in state `s`, entered with the mutex free. -/
def call {α : Type} (op : Op α) (s : mySensor) : Option (α × Exec) :=
  op { s := s, held := false, trace := [] }

/-- The method `start`: dial, register the TPV filter, start the watcher. -/
def start (dial : DialResult) (s : mySensor) : mySensor × GoError :=
  match dial with
  | Except.error err =>
    ({ s with session := none }, GoError.errorf ("Failed to connect to GPSD: " ++ err))
  | Except.ok ss =>
    ({ s with session := some { ss with filters := ss.filters ++ ["TPV"], watching := true } },
      GoError.nil)

/-- The constructor `newMovementSensor`: it builds the struct, calls `start` and
returns the struct with a nil error. -/
def newMovementSensor (name : String) (dial : DialResult) : Option mySensor × GoError :=
  let s : mySensor :=
    { name := name, prop := movementsensor.Properties.zero, session := none,
      lastData := time.zeroTime, tpv := gpsd.TPVReport.zero }
  let started := start dial s
  (some started.1, GoError.nil)

/-- The value a method returns when called on the sensor in state `s`. -/
def result {α : Type} (op : Op α) (s : mySensor) : Option α :=
  (call op s).map fun x => x.1

/-- The sensor's state when the method has returned. -/
def after {α : Type} (op : Op α) (s : mySensor) : Option mySensor :=
  (call op s).map fun x => x.2.s

/-- The accesses to guarded fields a method makes. -/
def accesses {α : Type} (op : Op α) (s : mySensor) : Option (List Access) :=
  (call op s).map fun x => x.2.trace

/-- Whether the method has released the mutex when it returns. -/
def releases {α : Type} (op : Op α) (s : mySensor) : Option Bool :=
  (call op s).map fun x => !x.2.held

/-- The lock discipline on a list of accesses: every access happens with the mutex
held, and no address of a guarded field is handed out. -/
def disciplined (tr : List Access) : Bool :=
  tr.all fun a => a.held && a.kind != AccessKind.addr

/-! ## Runs of the sensor -/

/-- What can happen to a constructed sensor: the session delivers a report, or a
caller invokes a method. -/
inductive Event where
  | deliver (now : Time) (r : gpsd.TPVReport)
  | position (now : Time) (extra : Extra)
  | linearVelocity (now : Time) (extra : Extra)
  | angularVelocity (extra : Extra)
  | linearAcceleration (extra : Extra)
  | compassHeading (now : Time) (extra : Extra)
  | orientation (extra : Extra)
  | properties (extra : Extra)
  | accuracy (extra : Extra)
  | doCommand (cmd : Extra)
  | close (closeErr : GoError)

/-- The state after one event; `none` when the method does not return. -/
def step (env : Env) (s : mySensor) : Event → Option mySensor
  | Event.deliver now r => after (tpvFilter now r) s
  | Event.position now extra => after (Position env now extra) s
  | Event.linearVelocity now extra => after (LinearVelocity env now extra) s
  | Event.angularVelocity extra => after (AngularVelocity extra) s
  | Event.linearAcceleration extra => after (LinearAcceleration extra) s
  | Event.compassHeading now extra => after (CompassHeading env now extra) s
  | Event.orientation extra => after (Orientation extra) s
  | Event.properties extra => after (Properties extra) s
  | Event.accuracy extra => after (Accuracy extra) s
  | Event.doCommand cmd => after (DoCommand cmd) s
  | Event.close closeErr => after (Close closeErr) s

/-- The state after a sequence of events, one after the other. -/
def run (env : Env) (s : mySensor) : List Event → Option mySensor
  | [] => some s
  | ev :: evs => (step env s ev).bind fun s' => run env s' evs

/-- The delivery events of a list of (arrival instant, report) pairs. -/
def deliveries (ds : List (Time × gpsd.TPVReport)) : List Event :=
  ds.map fun d => Event.deliver d.1 d.2

/-! ## Sample data -/

/-- A sample environment: the capture key of the data manager, instants rendered as
their nanosecond count and maps by their number of entries. -/
def sampleEnv : Env :=
  { FromDMString := "fromDataManagement"
    fmtTime := fun t => toString t
    fmtExtra := fun m =>
      match m with
      | none => "map[]"
      | some kvs => "map[" ++ toString kvs.length ++ "]" }

/-- The report of the scenarios: lat 37.0, lon -122.0, alt 10.0, speed 2.5, track 90.0
(as IEEE-754 bit patterns). -/
def sampleReport : gpsd.TPVReport :=
  { Lat := ⟨0x4042800000000000⟩, Lon := ⟨0xC05E800000000000⟩, Alt := ⟨0x4024000000000000⟩,
    Track := ⟨0x4056800000000000⟩, Speed := ⟨0x4004000000000000⟩ }

/-- A connected session as `gpsd.Dial` returns it. -/
def sampleSession : gpsd.Session := { filters := [], watching := false, closed := false }

/-- A sensor that was constructed on a working feed and has received no report. -/
def sampleSensor : mySensor :=
  { name := "gps", prop := movementsensor.Properties.zero,
    session := some { filters := ["TPV"], watching := true, closed := false },
    lastData := time.zeroTime, tpv := gpsd.TPVReport.zero }

/-- An extra map carrying the data-capture flag. -/
def captureExtra : Extra := some [("fromDataManagement", GoValue.bool true)]

/-- The accesses `Position` makes before it calls `tooOld`. -/
def positionReads : List Access :=
  [⟨AccessKind.read, Field.tpv, true⟩, ⟨AccessKind.read, Field.tpv, true⟩,
   ⟨AccessKind.read, Field.tpv, true⟩]

/-- The access `LinearVelocity` and `CompassHeading` make before they call `tooOld`. -/
def fieldRead : List Access := [⟨AccessKind.read, Field.tpv, true⟩]

/-- Call a method twice in a row, the second time on the state the first call left,
and return both results. -/
def twice {α : Type} (op : Op α) (s : mySensor) : Option (α × α) :=
  match call op s with
  | none => none
  | some (a, e) =>
    match call op e.s with
    | none => none
    | some (b, _) => some (a, b)

/-- A method is a pure read at `s`: it returns, leaves every field of the sensor as it
was, and called again at once it returns the same result. -/
def pureRead {α : Type} (op : Op α) (s : mySensor) : Prop :=
  after op s = some s ∧ ∃ v, twice op s = some (v, v)

/-- The flags with all three capabilities supported. -/
def allSupported : movementsensor.Properties :=
  { PositionSupported := true, CompassHeadingSupported := true,
    LinearVelocitySupported := true }

/-- The sample sensor after the sample report was delivered at instant 0. -/
def sampleSensor1 : mySensor :=
  { sampleSensor with prop := allSupported, lastData := 0, tpv := sampleReport }

/-- A sample run after the first delivery: a stale read, a second delivery at 62 s,
a call of `Properties`, the shutdown, and a read long after it. -/
def sampleEvents : List Event :=
  [Event.position 61000000000 none, Event.deliver 62000000000 sampleReport,
   Event.properties none, Event.close GoError.nil,
   Event.compassHeading 200000000000 captureExtra]

/-- The sample sensor after `sampleEvents`. -/
def sampleSensor2 : mySensor :=
  { name := "gps", prop := allSupported,
    session := some { filters := ["TPV"], watching := true, closed := true },
    lastData := 62000000000, tpv := sampleReport }

/-! ## Arithmetic of the staleness test -/

theorem since_lt_minute (now t : Time) (h0 : 0 ≤ now - t) (h1 : now - t < time.Minute) :
    time.Since now t < time.Minute := by
  unfold time.Since time.Sub
  simp only [time.Minute, time.Second, time.maxDuration, time.minDuration, Time, Duration] at *
  split_ifs <;> omega

theorem since_not_lt_minute (now t : Time) (h : time.Minute ≤ now - t) :
    ¬ time.Since now t < time.Minute := by
  unfold time.Since time.Sub
  simp only [time.Minute, time.Second, time.maxDuration, time.minDuration, Time, Duration] at *
  split_ifs <;> omega

/-! ## Closed forms of the methods -/

theorem call_tpvFilter (s : mySensor) (t : Time) (r : gpsd.TPVReport) :
    call (tpvFilter t r) s = some ((),
      { s := { s with
                prop := { PositionSupported := true, CompassHeadingSupported := true,
                          LinearVelocitySupported := true }
                lastData := t
                tpv := r }
        held := false
        trace := [⟨AccessKind.write, Field.prop, true⟩, ⟨AccessKind.write, Field.prop, true⟩,
                  ⟨AccessKind.write, Field.prop, true⟩, ⟨AccessKind.write, Field.lastData, true⟩,
                  ⟨AccessKind.write, Field.tpv, true⟩] }) := by
  rfl

theorem after_tpvFilter (s : mySensor) (t : Time) (r : gpsd.TPVReport) :
    after (tpvFilter t r) s = some
      { s with
        prop := { PositionSupported := true, CompassHeadingSupported := true,
                  LinearVelocitySupported := true }
        lastData := t
        tpv := r } := by
  rfl

/-! ## The staleness check -/

theorem eqTrue_iff (v : GoValue) : v.eqTrue = true ↔ v = GoValue.bool true := by
  cases v with
  | bool b => cases b <;> simp [GoValue.eqTrue]
  | _ => simp [GoValue.eqTrue]

theorem mapIndex_eqTrue (kvs : List (String × GoValue)) (k : String) :
    (mapIndex kvs k).eqTrue = true ↔ kvs.lookup k = some (GoValue.bool true) := by
  unfold mapIndex
  cases h : kvs.lookup k with
  | none => simp [GoValue.eqTrue]
  | some v => simp [eqTrue_iff]

theorem tooOld_fresh (env : Env) (now : Time) (extra : Extra) (e : Exec)
    (h : time.Since now e.s.lastData < time.Minute) :
    tooOld env now extra e = some (GoError.nil,
      { e with trace := e.trace ++ [⟨AccessKind.read, Field.lastData, e.held⟩] }) := by
  simp [tooOld, bind, Op.bind, pure, Op.pure, loadLastData, touch, h]

theorem tooOld_capture (env : Env) (now : Time) (kvs : List (String × GoValue)) (e : Exec)
    (h : ¬ time.Since now e.s.lastData < time.Minute)
    (hk : kvs.lookup env.FromDMString = some (GoValue.bool true)) :
    tooOld env now (some kvs) e = some (GoError.ErrNoCaptureToStore,
      { e with trace := e.trace ++ [⟨AccessKind.read, Field.lastData, e.held⟩] }) := by
  have hk' := (mapIndex_eqTrue kvs env.FromDMString).mpr hk
  simp [tooOld, bind, Op.bind, pure, Op.pure, loadLastData, touch, h, hk']

theorem tooOld_descriptive (env : Env) (now : Time) (extra : Extra) (e : Exec)
    (h : ¬ time.Since now e.s.lastData < time.Minute)
    (hk : ∀ kvs, extra = some kvs → kvs.lookup env.FromDMString ≠ some (GoValue.bool true)) :
    tooOld env now extra e = some (GoError.errorf
        ("lastUpdate update too old: " ++ env.fmtTime e.s.lastData ++ " (" ++
          env.fmtExtra extra ++ ")"),
      { e with trace := e.trace ++ [⟨AccessKind.read, Field.lastData, e.held⟩,
                                    ⟨AccessKind.read, Field.lastData, e.held⟩] }) := by
  cases extra with
  | none => simp [tooOld, bind, Op.bind, pure, Op.pure, loadLastData, touch, h]
  | some kvs =>
    have hk' : (mapIndex kvs env.FromDMString).eqTrue = false := by
      have hne := mt (mapIndex_eqTrue kvs env.FromDMString).mp (hk kvs rfl)
      simpa using hne
    simp [tooOld, bind, Op.bind, pure, Op.pure, loadLastData, touch, h, hk']

/-- The check always returns; it changes no field and not the mutex, and all it does
to guarded memory is load `lastData`. -/
theorem tooOld_total (env : Env) (now : Time) (extra : Extra) (e : Exec) :
    ∃ err tr, tooOld env now extra e = some (err, { e with trace := e.trace ++ tr }) ∧
      ∀ a ∈ tr, a = ⟨AccessKind.read, Field.lastData, e.held⟩ := by
  by_cases h : time.Since now e.s.lastData < time.Minute
  · exact ⟨_, _, tooOld_fresh env now extra e h, by simp⟩
  · by_cases hk : ∃ kvs, extra = some kvs ∧
        kvs.lookup env.FromDMString = some (GoValue.bool true)
    · obtain ⟨kvs, rfl, hk⟩ := hk
      exact ⟨_, _, tooOld_capture env now kvs e h hk, by simp⟩
    · have hk' : ∀ kvs, extra = some kvs →
          kvs.lookup env.FromDMString ≠ some (GoValue.bool true) :=
        fun kvs hx hl => hk ⟨kvs, hx, hl⟩
      exact ⟨_, _, tooOld_descriptive env now extra e h hk', by simp⟩

/-! ## Closed forms of the read methods -/

theorem call_Position (env : Env) (now : Time) (extra : Extra) (s : mySensor)
    (err : GoError) (tr : List Access)
    (h : tooOld env now extra { s := s, held := true, trace := positionReads } =
      some (err, { s := s, held := true, trace := positionReads ++ tr })) :
    call (Position env now extra) s =
      some ((geo.NewPoint s.tpv.Lat s.tpv.Lon, s.tpv.Alt, err),
        { s := s, held := false, trace := positionReads ++ tr }) := by
  simp [positionReads] at h
  simp [call, Position, bind, Op.bind, pure, Op.pure, Lock, Unlock, loadTpv, touch, h,
    positionReads]

theorem call_LinearVelocity (env : Env) (now : Time) (extra : Extra) (s : mySensor)
    (err : GoError) (tr : List Access)
    (h : tooOld env now extra { s := s, held := true, trace := fieldRead } =
      some (err, { s := s, held := true, trace := fieldRead ++ tr })) :
    call (LinearVelocity env now extra) s =
      some (({ X := float64.zero, Y := s.tpv.Speed, Z := float64.zero }, err),
        { s := s, held := false, trace := fieldRead ++ tr }) := by
  simp [fieldRead] at h
  simp [call, LinearVelocity, bind, Op.bind, pure, Op.pure, Lock, Unlock, loadTpv, touch, h,
    fieldRead]

theorem call_CompassHeading (env : Env) (now : Time) (extra : Extra) (s : mySensor)
    (err : GoError) (tr : List Access)
    (h : tooOld env now extra { s := s, held := true, trace := fieldRead } =
      some (err, { s := s, held := true, trace := fieldRead ++ tr })) :
    call (CompassHeading env now extra) s =
      some ((s.tpv.Track, err), { s := s, held := false, trace := fieldRead ++ tr }) := by
  simp [fieldRead] at h
  simp [call, CompassHeading, bind, Op.bind, pure, Op.pure, Lock, Unlock, loadTpv, touch, h,
    fieldRead]

theorem Position_total (env : Env) (now : Time) (extra : Extra) (s : mySensor) :
    ∃ err tr,
      tooOld env now extra { s := s, held := true, trace := positionReads } =
        some (err, { s := s, held := true, trace := positionReads ++ tr }) ∧
      call (Position env now extra) s =
        some ((geo.NewPoint s.tpv.Lat s.tpv.Lon, s.tpv.Alt, err),
          { s := s, held := false, trace := positionReads ++ tr }) ∧
      ∀ a ∈ tr, a = ⟨AccessKind.read, Field.lastData, true⟩ := by
  obtain ⟨err, tr, h, htr⟩ :=
    tooOld_total env now extra { s := s, held := true, trace := positionReads }
  exact ⟨err, tr, h, call_Position env now extra s err tr h, htr⟩

theorem LinearVelocity_total (env : Env) (now : Time) (extra : Extra) (s : mySensor) :
    ∃ err tr,
      tooOld env now extra { s := s, held := true, trace := fieldRead } =
        some (err, { s := s, held := true, trace := fieldRead ++ tr }) ∧
      call (LinearVelocity env now extra) s =
        some (({ X := float64.zero, Y := s.tpv.Speed, Z := float64.zero }, err),
          { s := s, held := false, trace := fieldRead ++ tr }) ∧
      ∀ a ∈ tr, a = ⟨AccessKind.read, Field.lastData, true⟩ := by
  obtain ⟨err, tr, h, htr⟩ :=
    tooOld_total env now extra { s := s, held := true, trace := fieldRead }
  exact ⟨err, tr, h, call_LinearVelocity env now extra s err tr h, htr⟩

theorem CompassHeading_total (env : Env) (now : Time) (extra : Extra) (s : mySensor) :
    ∃ err tr,
      tooOld env now extra { s := s, held := true, trace := fieldRead } =
        some (err, { s := s, held := true, trace := fieldRead ++ tr }) ∧
      call (CompassHeading env now extra) s =
        some ((s.tpv.Track, err), { s := s, held := false, trace := fieldRead ++ tr }) ∧
      ∀ a ∈ tr, a = ⟨AccessKind.read, Field.lastData, true⟩ := by
  obtain ⟨err, tr, h, htr⟩ :=
    tooOld_total env now extra { s := s, held := true, trace := fieldRead }
  exact ⟨err, tr, h, call_CompassHeading env now extra s err tr h, htr⟩

/-- The result of `Position` is the cached point and altitude paired with what
`tooOld` returns under the lock. -/
theorem result_Position (env : Env) (now : Time) (extra : Extra) (s : mySensor) :
    result (Position env now extra) s =
      (tooOld env now extra { s := s, held := true, trace := positionReads }).map
        fun x => (geo.NewPoint s.tpv.Lat s.tpv.Lon, s.tpv.Alt, x.1) := by
  obtain ⟨err, tr, h, hc, _⟩ := Position_total env now extra s
  rw [result, hc, h]
  rfl

/-- The result of `LinearVelocity` is the cached speed on the Y axis paired with what
`tooOld` returns under the lock. -/
theorem result_LinearVelocity (env : Env) (now : Time) (extra : Extra) (s : mySensor) :
    result (LinearVelocity env now extra) s =
      (tooOld env now extra { s := s, held := true, trace := fieldRead }).map
        fun x => (({ X := float64.zero, Y := s.tpv.Speed, Z := float64.zero } : r3.Vector),
          x.1) := by
  obtain ⟨err, tr, h, hc, _⟩ := LinearVelocity_total env now extra s
  rw [result, hc, h]
  rfl

/-- The result of `CompassHeading` is the cached track paired with what `tooOld`
returns under the lock. -/
theorem result_CompassHeading (env : Env) (now : Time) (extra : Extra) (s : mySensor) :
    result (CompassHeading env now extra) s =
      (tooOld env now extra { s := s, held := true, trace := fieldRead }).map
        fun x => (s.tpv.Track, x.1) := by
  obtain ⟨err, tr, h, hc, _⟩ := CompassHeading_total env now extra s
  rw [result, hc, h]
  rfl

/-! ## Freshness and staleness of reads -/

/-- C1: after the TPV filter has stored a report at instant `t`, a read at an instant
`now` with `0 ≤ now - t < 1 minute` returns a nil error from `Position`,
`LinearVelocity` and `CompassHeading`, for every prior state, report and extra map. -/
theorem fresh_reads_return_nil_error (env : Env) (s : mySensor) (r : gpsd.TPVReport)
    (t now : Time) (extra : Extra) (h0 : 0 ≤ now - t) (h1 : now - t < time.Minute) :
    ∃ s', after (tpvFilter t r) s = some s' ∧
      (result (Position env now extra) s').map (fun x => x.2.2) = some GoError.nil ∧
      (result (LinearVelocity env now extra) s').map (fun x => x.2) = some GoError.nil ∧
      (result (CompassHeading env now extra) s').map (fun x => x.2) = some GoError.nil := by
  have key : ∀ s' : mySensor, s'.lastData = t →
      (result (Position env now extra) s').map (fun x => x.2.2) = some GoError.nil ∧
      (result (LinearVelocity env now extra) s').map (fun x => x.2) = some GoError.nil ∧
      (result (CompassHeading env now extra) s').map (fun x => x.2) = some GoError.nil := by
    intro s' hs'
    have hs : time.Since now s'.lastData < time.Minute := by
      rw [hs']
      exact since_lt_minute now t h0 h1
    rw [result_Position, result_LinearVelocity, result_CompassHeading,
      tooOld_fresh env now extra { s := s', held := true, trace := positionReads } hs,
      tooOld_fresh env now extra { s := s', held := true, trace := fieldRead } hs]
    exact ⟨rfl, rfl, rfl⟩
  exact ⟨_, after_tpvFilter s t r, key _ rfl⟩

/-- C1 at a sample input: a report stored at instant 0 and read 30 seconds later. -/
theorem fresh_reads_return_nil_error_witness :
    (0 : Int) ≤ 30000000000 - 0 ∧ (30000000000 : Int) - 0 < time.Minute ∧
    ∃ s', after (tpvFilter 0 sampleReport) sampleSensor = some s' ∧
      (result (Position sampleEnv 30000000000 captureExtra) s').map (fun x => x.2.2) =
        some GoError.nil ∧
      (result (LinearVelocity sampleEnv 30000000000 captureExtra) s').map (fun x => x.2) =
        some GoError.nil ∧
      (result (CompassHeading sampleEnv 30000000000 captureExtra) s').map (fun x => x.2) =
        some GoError.nil :=
  ⟨by decide, by decide,
    fresh_reads_return_nil_error sampleEnv sampleSensor sampleReport 0 30000000000 captureExtra
      (by decide) (by decide)⟩

/-- C2: when the age `now - lastData` is at least one minute and the extra map does not
hold boolean true under the data-capture key (it is nil, lacks the key, or holds another
value), `Position`, `LinearVelocity` and `CompassHeading` all return one descriptive
error: it is not nil, it is not `ErrNoCaptureToStore`, and its message contains the
rendering of `lastData` and the rendering of the extra map. -/
theorem stale_reads_return_descriptive_error (env : Env) (s : mySensor) (now : Time)
    (extra : Extra) (hage : time.Minute ≤ now - s.lastData)
    (hflag : ∀ kvs, extra = some kvs →
      kvs.lookup env.FromDMString ≠ some (GoValue.bool true)) :
    ∃ msg,
      (result (Position env now extra) s).map (fun x => x.2.2) = some (GoError.errorf msg) ∧
      (result (LinearVelocity env now extra) s).map (fun x => x.2) =
        some (GoError.errorf msg) ∧
      (result (CompassHeading env now extra) s).map (fun x => x.2) =
        some (GoError.errorf msg) ∧
      GoError.errorf msg ≠ GoError.nil ∧
      GoError.errorf msg ≠ GoError.ErrNoCaptureToStore ∧
      (∃ a b, msg = a ++ env.fmtTime s.lastData ++ b) ∧
      (∃ a b, msg = a ++ env.fmtExtra extra ++ b) := by
  have hs := since_not_lt_minute now s.lastData hage
  refine ⟨"lastUpdate update too old: " ++ env.fmtTime s.lastData ++ " (" ++
    env.fmtExtra extra ++ ")", ?_, ?_, ?_, by simp, by simp, ?_, ?_⟩
  · rw [result_Position,
      tooOld_descriptive env now extra { s := s, held := true, trace := positionReads } hs hflag]
    rfl
  · rw [result_LinearVelocity,
      tooOld_descriptive env now extra { s := s, held := true, trace := fieldRead } hs hflag]
    rfl
  · rw [result_CompassHeading,
      tooOld_descriptive env now extra { s := s, held := true, trace := fieldRead } hs hflag]
    rfl
  · exact ⟨"lastUpdate update too old: ", " (" ++ env.fmtExtra extra ++ ")", by
      simp [String.append_assoc]⟩
  · exact ⟨"lastUpdate update too old: " ++ env.fmtTime s.lastData ++ " (", ")", by
      simp [String.append_assoc]⟩

/-- C3: when the age `now - lastData` is at least one minute and the extra map holds
boolean true under the data-capture key, `Position`, `LinearVelocity` and
`CompassHeading` return exactly the sentinel `ErrNoCaptureToStore`. -/
theorem stale_capture_reads_return_sentinel (env : Env) (s : mySensor) (now : Time)
    (kvs : List (String × GoValue)) (hage : time.Minute ≤ now - s.lastData)
    (hflag : kvs.lookup env.FromDMString = some (GoValue.bool true)) :
    (result (Position env now (some kvs)) s).map (fun x => x.2.2) =
      some GoError.ErrNoCaptureToStore ∧
    (result (LinearVelocity env now (some kvs)) s).map (fun x => x.2) =
      some GoError.ErrNoCaptureToStore ∧
    (result (CompassHeading env now (some kvs)) s).map (fun x => x.2) =
      some GoError.ErrNoCaptureToStore := by
  have hs := since_not_lt_minute now s.lastData hage
  rw [result_Position, result_LinearVelocity, result_CompassHeading,
    tooOld_capture env now kvs { s := s, held := true, trace := positionReads } hs hflag,
    tooOld_capture env now kvs { s := s, held := true, trace := fieldRead } hs hflag]
  exact ⟨rfl, rfl, rfl⟩

/-- C2 at a sample input: data stored at instant 0, read 61 seconds later with an extra
map whose capture key holds the string "true". -/
theorem stale_reads_return_descriptive_error_witness :
    time.Minute ≤ 61000000000 - sampleSensor.lastData ∧
    ∃ msg,
      (result (Position sampleEnv 61000000000
          (some [("fromDataManagement", GoValue.string "true")]) ) sampleSensor).map
        (fun x => x.2.2) = some (GoError.errorf msg) ∧
      (result (LinearVelocity sampleEnv 61000000000
          (some [("fromDataManagement", GoValue.string "true")])) sampleSensor).map
        (fun x => x.2) = some (GoError.errorf msg) ∧
      (result (CompassHeading sampleEnv 61000000000
          (some [("fromDataManagement", GoValue.string "true")])) sampleSensor).map
        (fun x => x.2) = some (GoError.errorf msg) ∧
      GoError.errorf msg ≠ GoError.nil ∧
      GoError.errorf msg ≠ GoError.ErrNoCaptureToStore ∧
      (∃ a b, msg = a ++ sampleEnv.fmtTime sampleSensor.lastData ++ b) ∧
      (∃ a b, msg = a ++
        sampleEnv.fmtExtra (some [("fromDataManagement", GoValue.string "true")]) ++ b) :=
  ⟨by decide,
    stale_reads_return_descriptive_error sampleEnv sampleSensor 61000000000
      (some [("fromDataManagement", GoValue.string "true")]) (by decide)
      (by
        intro kvs h
        cases h
        simp [sampleEnv, List.lookup])⟩

/-- C3 at a sample input: data stored at instant 0, read exactly one minute later with
the capture flag set. -/
theorem stale_capture_reads_return_sentinel_witness :
    time.Minute ≤ 60000000000 - sampleSensor.lastData ∧
    (result (Position sampleEnv 60000000000
        (some [("fromDataManagement", GoValue.bool true)])) sampleSensor).map
      (fun x => x.2.2) = some GoError.ErrNoCaptureToStore ∧
    (result (LinearVelocity sampleEnv 60000000000
        (some [("fromDataManagement", GoValue.bool true)])) sampleSensor).map
      (fun x => x.2) = some GoError.ErrNoCaptureToStore ∧
    (result (CompassHeading sampleEnv 60000000000
        (some [("fromDataManagement", GoValue.bool true)])) sampleSensor).map
      (fun x => x.2) = some GoError.ErrNoCaptureToStore :=
  ⟨by decide,
    stale_capture_reads_return_sentinel sampleEnv sampleSensor 60000000000
      [("fromDataManagement", GoValue.bool true)] (by decide)
      (by simp [sampleEnv, List.lookup])⟩

/-! ## Frame lemmas -/

theorem after_Position (env : Env) (now : Time) (extra : Extra) (s : mySensor) :
    after (Position env now extra) s = some s := by
  obtain ⟨err, tr, _, hc, _⟩ := Position_total env now extra s
  rw [after, hc]
  rfl

theorem after_LinearVelocity (env : Env) (now : Time) (extra : Extra) (s : mySensor) :
    after (LinearVelocity env now extra) s = some s := by
  obtain ⟨err, tr, _, hc, _⟩ := LinearVelocity_total env now extra s
  rw [after, hc]
  rfl

theorem after_CompassHeading (env : Env) (now : Time) (extra : Extra) (s : mySensor) :
    after (CompassHeading env now extra) s = some s := by
  obtain ⟨err, tr, _, hc, _⟩ := CompassHeading_total env now extra s
  rw [after, hc]
  rfl

theorem pureRead_of_call {α : Type} (op : Op α) (s : mySensor) (v : α) (e : Exec)
    (h : call op s = some (v, e)) (hs : e.s = s) : pureRead op s := by
  refine ⟨?_, v, ?_⟩
  · rw [after, h]
    simp [hs]
  · simp only [twice, h, hs]

/-! ## Runs -/

theorem step_deliver (env : Env) (s : mySensor) (t : Time) (r : gpsd.TPVReport) :
    step env s (Event.deliver t r) =
      some { s with prop := allSupported, lastData := t, tpv := r } :=
  after_tpvFilter s t r

theorem run_append (env : Env) (s : mySensor) (xs ys : List Event) :
    run env s (xs ++ ys) = (run env s xs).bind fun s' => run env s' ys := by
  induction xs generalizing s with
  | nil => rfl
  | cons ev evs ih =>
    simp only [List.cons_append, run]
    cases step env s ev with
    | none => rfl
    | some s1 => simpa using ih s1

theorem run_deliveries (env : Env) (s : mySensor) (ds : List (Time × gpsd.TPVReport)) :
    ∃ s', run env s (deliveries ds) = some s' := by
  induction ds generalizing s with
  | nil => exact ⟨s, rfl⟩
  | cons d ds ih =>
    obtain ⟨s', hs'⟩ := ih { s with prop := allSupported, lastData := d.1, tpv := d.2 }
    refine ⟨s', ?_⟩
    simp only [deliveries, List.map_cons, run, step_deliver, Option.some_bind]
    exact hs'

theorem run_deliveries_last (env : Env) (s : mySensor) (ds : List (Time × gpsd.TPVReport))
    (t : Time) (r : gpsd.TPVReport) :
    ∃ s1 : mySensor, run env s (deliveries (ds ++ [(t, r)])) =
      some { s1 with prop := allSupported, lastData := t, tpv := r } := by
  obtain ⟨s1, h1⟩ := run_deliveries env s ds
  refine ⟨s1, ?_⟩
  simp only [deliveries, List.map_append, List.map_cons, List.map_nil] at h1 ⊢
  rw [run_append, h1]
  simp only [Option.some_bind, run, step_deliver]

/-- C5: after any sequence of deliveries ending in report `r`, and for every read
instant and extra map, `Position` returns the point `(r.Lat, r.Lon)` with altitude
`r.Alt`, `LinearVelocity` the vector `(0, r.Speed, 0)` and `CompassHeading` the value
`r.Track`, whatever the staleness check returns. -/
theorem reads_return_last_delivered_report (env : Env) (s : mySensor)
    (ds : List (Time × gpsd.TPVReport)) (t : Time) (r : gpsd.TPVReport) (now : Time)
    (extra : Extra) :
    ∃ s', run env s (deliveries (ds ++ [(t, r)])) = some s' ∧
      (result (Position env now extra) s').map (fun x => (x.1, x.2.1)) =
        some (geo.NewPoint r.Lat r.Lon, r.Alt) ∧
      (result (LinearVelocity env now extra) s').map (fun x => x.1) =
        some { X := float64.zero, Y := r.Speed, Z := float64.zero } ∧
      (result (CompassHeading env now extra) s').map (fun x => x.1) = some r.Track := by
  obtain ⟨s1, h1⟩ := run_deliveries_last env s ds t r
  refine ⟨_, h1, ?_, ?_, ?_⟩
  · obtain ⟨err, tr, _, hc, _⟩ := Position_total env now extra
      ({ s1 with prop := allSupported, lastData := t, tpv := r } : mySensor)
    rw [result, hc]
    rfl
  · obtain ⟨err, tr, _, hc, _⟩ := LinearVelocity_total env now extra
      ({ s1 with prop := allSupported, lastData := t, tpv := r } : mySensor)
    rw [result, hc]
    rfl
  · obtain ⟨err, tr, _, hc, _⟩ := CompassHeading_total env now extra
      ({ s1 with prop := allSupported, lastData := t, tpv := r } : mySensor)
    rw [result, hc]
    rfl

/-- C5 at the report of the scenarios (lat 37.0, lon -122.0, alt 10.0, speed 2.5,
track 90.0), read 30 seconds and 61 seconds after its delivery at instant 0. -/
theorem reads_return_last_delivered_report_witness :
    (∃ s', run sampleEnv sampleSensor (deliveries ([] ++ [(0, sampleReport)])) = some s' ∧
      (result (Position sampleEnv 30000000000 none) s').map (fun x => (x.1, x.2.1)) =
        some (geo.NewPoint sampleReport.Lat sampleReport.Lon, sampleReport.Alt) ∧
      (result (LinearVelocity sampleEnv 30000000000 none) s').map (fun x => x.1) =
        some { X := float64.zero, Y := sampleReport.Speed, Z := float64.zero } ∧
      (result (CompassHeading sampleEnv 30000000000 none) s').map (fun x => x.1) =
        some sampleReport.Track) ∧
    (∃ s', run sampleEnv sampleSensor (deliveries ([] ++ [(0, sampleReport)])) = some s' ∧
      (result (Position sampleEnv 61000000000 none) s').map (fun x => (x.1, x.2.1)) =
        some (geo.NewPoint sampleReport.Lat sampleReport.Lon, sampleReport.Alt) ∧
      (result (LinearVelocity sampleEnv 61000000000 none) s').map (fun x => x.1) =
        some { X := float64.zero, Y := sampleReport.Speed, Z := float64.zero } ∧
      (result (CompassHeading sampleEnv 61000000000 none) s').map (fun x => x.1) =
        some sampleReport.Track) :=
  ⟨reads_return_last_delivered_report sampleEnv sampleSensor [] 0 sampleReport 30000000000 none,
    reads_return_last_delivered_report sampleEnv sampleSensor [] 0 sampleReport 61000000000 none⟩

/-! ## Unsupported reads -/

/-- C6: in every sensor state and for every argument, `AngularVelocity` returns the zero
angular velocity, `LinearAcceleration` the zero vector, `Orientation` the zero Euler
angles, `Accuracy` a nil map and `DoCommand` a nil map, each with a nil error. -/
theorem unsupported_reads_return_zero (s : mySensor) (extra cmd : Extra) :
    result (AngularVelocity extra) s =
      some ({ X := float64.zero, Y := float64.zero, Z := float64.zero }, GoError.nil) ∧
    result (LinearAcceleration extra) s =
      some ({ X := float64.zero, Y := float64.zero, Z := float64.zero }, GoError.nil) ∧
    result (Orientation extra) s =
      some ({ Roll := float64.zero, Pitch := float64.zero, Yaw := float64.zero },
        GoError.nil) ∧
    result (Accuracy extra) s = some (none, GoError.nil) ∧
    result (DoCommand cmd) s = some (none, GoError.nil) :=
  ⟨rfl, rfl, rfl, rfl, rfl⟩

/-! ## Capability flags -/

theorem step_keeps_allSupported (env : Env) (s s' : mySensor) (ev : Event)
    (h : step env s ev = some s') (hp : s.prop = allSupported) : s'.prop = allSupported := by
  cases ev with
  | deliver t r =>
    rw [step_deliver] at h
    cases h
    rfl
  | position now extra =>
    rw [step, after_Position] at h
    cases h
    exact hp
  | linearVelocity now extra =>
    rw [step, after_LinearVelocity] at h
    cases h
    exact hp
  | compassHeading now extra =>
    rw [step, after_CompassHeading] at h
    cases h
    exact hp
  | angularVelocity extra =>
    cases h
    exact hp
  | linearAcceleration extra =>
    cases h
    exact hp
  | orientation extra =>
    cases h
    exact hp
  | properties extra =>
    cases h
    exact hp
  | accuracy extra =>
    cases h
    exact hp
  | doCommand cmd =>
    cases h
    exact hp
  | close closeErr =>
    simp only [step, after, call, Close] at h
    cases hss : s.session with
    | none => simp [hss] at h
    | some ss =>
      simp only [hss, Option.map_some', Option.some.injEq] at h
      rw [← h]
      exact hp

theorem run_keeps_allSupported (env : Env) (evs : List Event) (s s' : mySensor)
    (h : run env s evs = some s') (hp : s.prop = allSupported) : s'.prop = allSupported := by
  induction evs generalizing s with
  | nil =>
    cases h
    exact hp
  | cons ev evs ih =>
    simp only [run] at h
    cases hstep : step env s ev with
    | none => simp [hstep] at h
    | some s1 =>
      rw [hstep] at h
      exact ih s1 h (step_keeps_allSupported env s s1 ev hstep hp)

/-- C7: `Properties` on the constructed sensor reports all three capabilities as
unsupported; after a report delivery (whatever calls came before it) it reports all
three as supported; and in every state reached from there by any sequence of deliveries
and method calls at any instants it still reports all three as supported, each time
with a nil error. -/
theorem capability_flags_stay_true (env : Env) (name : String) (dial : DialResult)
    (pre : List Event) (t : Time) (r : gpsd.TPVReport) (evs : List Event) (extra : Extra)
    (s0 sa s1 s' : mySensor)
    (hnew : (newMovementSensor name dial).1 = some s0)
    (_hpre : run env s0 pre = some sa)
    (hfirst : step env sa (Event.deliver t r) = some s1)
    (hrun : run env s1 evs = some s') :
    (∃ p, result (Properties extra) s0 = some (p, GoError.nil) ∧
      p.load s0 = some movementsensor.Properties.zero) ∧
    (∃ p, result (Properties extra) s1 = some (p, GoError.nil) ∧
      p.load s1 = some allSupported) ∧
    (∃ p, result (Properties extra) s' = some (p, GoError.nil) ∧
      p.load s' = some allSupported) := by
  have h0 : s0.prop = movementsensor.Properties.zero := by
    cases dial <;>
    · simp only [newMovementSensor, start, Option.some.injEq] at hnew
      rw [← hnew]
  have h1 : s1.prop = allSupported := by
    rw [step_deliver] at hfirst
    cases hfirst
    rfl
  have h2 : s'.prop = allSupported := run_keeps_allSupported env evs s1 s' hrun h1
  refine ⟨⟨PropertiesPtr.sensorProp, rfl, ?_⟩, ⟨PropertiesPtr.sensorProp, rfl, ?_⟩,
    ⟨PropertiesPtr.sensorProp, rfl, ?_⟩⟩
  · simp [PropertiesPtr.load, h0]
  · simp [PropertiesPtr.load, h1]
  · simp [PropertiesPtr.load, h2]

/-- C7 on a sample run: construction on a working feed, two reads, a first delivery,
then `sampleEvents`. -/
theorem capability_flags_stay_true_witness :
    (newMovementSensor "gps" (Except.ok sampleSession)).1 = some sampleSensor ∧
    run sampleEnv sampleSensor
      [Event.position 5000000000 none, Event.properties none] = some sampleSensor ∧
    step sampleEnv sampleSensor (Event.deliver 0 sampleReport) = some sampleSensor1 ∧
    run sampleEnv sampleSensor1 sampleEvents = some sampleSensor2 ∧
    (∃ p, result (Properties none) sampleSensor = some (p, GoError.nil) ∧
      p.load sampleSensor = some movementsensor.Properties.zero) ∧
    (∃ p, result (Properties none) sampleSensor1 = some (p, GoError.nil) ∧
      p.load sampleSensor1 = some allSupported) ∧
    (∃ p, result (Properties none) sampleSensor2 = some (p, GoError.nil) ∧
      p.load sampleSensor2 = some allSupported) :=
  ⟨rfl, rfl, rfl, rfl,
    capability_flags_stay_true sampleEnv "gps" (Except.ok sampleSession)
      [Event.position 5000000000 none, Event.properties none] 0 sampleReport
      sampleEvents none sampleSensor sampleSensor sampleSensor1 sampleSensor2 rfl rfl rfl rfl⟩

/-! ## A sensor that never received a report -/

/-- C8: on a freshly constructed sensor (whatever the dial returned), at every instant at
least one minute after the zero instant, `Position`, `LinearVelocity` and
`CompassHeading` return the zero point, altitude, vector and heading together with one
non-nil error: the sentinel when the extra map holds boolean true under the capture
key, a descriptive error otherwise. -/
theorem never_received_is_stale (env : Env) (name : String) (dial : DialResult)
    (now : Time) (extra : Extra) (h : time.Minute ≤ now - time.zeroTime) :
    ∃ s0 err, newMovementSensor name dial = (some s0, GoError.nil) ∧
      err ≠ GoError.nil ∧
      ((∃ kvs, extra = some kvs ∧ kvs.lookup env.FromDMString = some (GoValue.bool true)) →
        err = GoError.ErrNoCaptureToStore) ∧
      ((∀ kvs, extra = some kvs → kvs.lookup env.FromDMString ≠ some (GoValue.bool true)) →
        ∃ msg, err = GoError.errorf msg) ∧
      result (Position env now extra) s0 =
        some (geo.NewPoint float64.zero float64.zero, float64.zero, err) ∧
      result (LinearVelocity env now extra) s0 =
        some ({ X := float64.zero, Y := float64.zero, Z := float64.zero }, err) ∧
      result (CompassHeading env now extra) s0 = some (float64.zero, err) := by
  have key : ∀ s0 : mySensor, s0.lastData = time.zeroTime → s0.tpv = gpsd.TPVReport.zero →
      ∃ err, err ≠ GoError.nil ∧
      ((∃ kvs, extra = some kvs ∧ kvs.lookup env.FromDMString = some (GoValue.bool true)) →
        err = GoError.ErrNoCaptureToStore) ∧
      ((∀ kvs, extra = some kvs → kvs.lookup env.FromDMString ≠ some (GoValue.bool true)) →
        ∃ msg, err = GoError.errorf msg) ∧
      result (Position env now extra) s0 =
        some (geo.NewPoint float64.zero float64.zero, float64.zero, err) ∧
      result (LinearVelocity env now extra) s0 =
        some ({ X := float64.zero, Y := float64.zero, Z := float64.zero }, err) ∧
      result (CompassHeading env now extra) s0 = some (float64.zero, err) := by
    intro s0 hl ht
    have hs : ¬ time.Since now s0.lastData < time.Minute := by
      rw [hl]
      exact since_not_lt_minute now time.zeroTime h
    rw [result_Position, result_LinearVelocity, result_CompassHeading, ht]
    by_cases hk : ∃ kvs, extra = some kvs ∧
        kvs.lookup env.FromDMString = some (GoValue.bool true)
    · obtain ⟨kvs, rfl, hk⟩ := hk
      refine ⟨GoError.ErrNoCaptureToStore, by simp, fun _ => rfl, ?_, ?_⟩
      · intro hno
        exact absurd hk (hno kvs rfl)
      · rw [tooOld_capture env now kvs { s := s0, held := true, trace := positionReads } hs hk,
          tooOld_capture env now kvs { s := s0, held := true, trace := fieldRead } hs hk]
        exact ⟨rfl, rfl, rfl⟩
    · have hk' : ∀ kvs, extra = some kvs →
          kvs.lookup env.FromDMString ≠ some (GoValue.bool true) :=
        fun kvs hx hl => hk ⟨kvs, hx, hl⟩
      refine ⟨GoError.errorf ("lastUpdate update too old: " ++ env.fmtTime s0.lastData ++
        " (" ++ env.fmtExtra extra ++ ")"), by simp, fun hyes => absurd hyes hk,
        fun _ => ⟨_, rfl⟩, ?_⟩
      rw [tooOld_descriptive env now extra { s := s0, held := true, trace := positionReads }
          hs hk',
        tooOld_descriptive env now extra { s := s0, held := true, trace := fieldRead } hs hk']
      exact ⟨rfl, rfl, rfl⟩
  cases dial with
  | error e =>
    obtain ⟨err, herr⟩ := key
      { name := name, prop := movementsensor.Properties.zero, session := none,
        lastData := time.zeroTime, tpv := gpsd.TPVReport.zero } rfl rfl
    exact ⟨_, err, rfl, herr⟩
  | ok ss =>
    obtain ⟨err, herr⟩ := key
      { name := name, prop := movementsensor.Properties.zero,
        session := some { ss with filters := ss.filters ++ ["TPV"], watching := true },
        lastData := time.zeroTime, tpv := gpsd.TPVReport.zero } rfl rfl
    exact ⟨_, err, rfl, herr⟩

/-- C8 at a sample input: a sensor constructed on a working feed, read one minute after
the zero instant with the capture flag set. -/
theorem never_received_is_stale_witness :
    time.Minute ≤ 60000000000 - time.zeroTime ∧
    ∃ s0 err, newMovementSensor "gps" (Except.ok sampleSession) = (some s0, GoError.nil) ∧
      err ≠ GoError.nil ∧
      ((∃ kvs, captureExtra = some kvs ∧
          kvs.lookup sampleEnv.FromDMString = some (GoValue.bool true)) →
        err = GoError.ErrNoCaptureToStore) ∧
      ((∀ kvs, captureExtra = some kvs →
          kvs.lookup sampleEnv.FromDMString ≠ some (GoValue.bool true)) →
        ∃ msg, err = GoError.errorf msg) ∧
      result (Position sampleEnv 60000000000 captureExtra) s0 =
        some (geo.NewPoint float64.zero float64.zero, float64.zero, err) ∧
      result (LinearVelocity sampleEnv 60000000000 captureExtra) s0 =
        some ({ X := float64.zero, Y := float64.zero, Z := float64.zero }, err) ∧
      result (CompassHeading sampleEnv 60000000000 captureExtra) s0 =
        some (float64.zero, err) :=
  ⟨by decide,
    never_received_is_stale sampleEnv "gps" (Except.ok sampleSession) 60000000000 captureExtra
      (by decide)⟩

/-! ## Reads do not write -/

/-- C9: each of the nine read methods returns, leaves every field of the sensor (so the
cached report, the timestamp and the flags) as it was, and called a second time at the
same clock reading with the same extra map returns the same result. -/
theorem reads_leave_state_unchanged (env : Env) (s : mySensor) (now : Time)
    (extra cmd : Extra) :
    pureRead (Position env now extra) s ∧
    pureRead (LinearVelocity env now extra) s ∧
    pureRead (CompassHeading env now extra) s ∧
    pureRead (AngularVelocity extra) s ∧
    pureRead (LinearAcceleration extra) s ∧
    pureRead (Orientation extra) s ∧
    pureRead (Properties extra) s ∧
    pureRead (Accuracy extra) s ∧
    pureRead (DoCommand cmd) s := by
  obtain ⟨e1, t1, _, hp, _⟩ := Position_total env now extra s
  obtain ⟨e2, t2, _, hl, _⟩ := LinearVelocity_total env now extra s
  obtain ⟨e3, t3, _, hc, _⟩ := CompassHeading_total env now extra s
  exact ⟨pureRead_of_call _ s _ _ hp rfl, pureRead_of_call _ s _ _ hl rfl,
    pureRead_of_call _ s _ _ hc rfl, pureRead_of_call _ s _ _ rfl rfl,
    pureRead_of_call _ s _ _ rfl rfl, pureRead_of_call _ s _ _ rfl rfl,
    pureRead_of_call _ s _ _ rfl rfl, pureRead_of_call _ s _ _ rfl rfl,
    pureRead_of_call _ s _ _ rfl rfl⟩

/-! ## Lock discipline -/

theorem disciplined_append (xs ys : List Access) :
    disciplined (xs ++ ys) = (disciplined xs && disciplined ys) := by
  simp [disciplined, List.all_append]

theorem disciplined_lastData_reads (tr : List Access)
    (h : ∀ a ∈ tr, a = ⟨AccessKind.read, Field.lastData, true⟩) : disciplined tr = true := by
  simp only [disciplined, List.all_eq_true]
  intro a ha
  rw [h a ha]
  rfl

/-- The filter and the three staleness-checked reads touch guarded fields only with the
mutex held, hand out no address, and release the mutex before they return. -/
theorem locked_methods_disciplined (env : Env) (s : mySensor) (now : Time)
    (r : gpsd.TPVReport) (extra : Extra) :
    (accesses (tpvFilter now r) s).map disciplined = some true ∧
    releases (tpvFilter now r) s = some true ∧
    (accesses (Position env now extra) s).map disciplined = some true ∧
    releases (Position env now extra) s = some true ∧
    (accesses (LinearVelocity env now extra) s).map disciplined = some true ∧
    releases (LinearVelocity env now extra) s = some true ∧
    (accesses (CompassHeading env now extra) s).map disciplined = some true ∧
    releases (CompassHeading env now extra) s = some true := by
  obtain ⟨e1, t1, _, hp, h1⟩ := Position_total env now extra s
  obtain ⟨e2, t2, _, hl, h2⟩ := LinearVelocity_total env now extra s
  obtain ⟨e3, t3, _, hc, h3⟩ := CompassHeading_total env now extra s
  refine ⟨rfl, rfl, ?_, ?_, ?_, ?_, ?_, ?_⟩
  · rw [accesses, hp]
    simp only [Option.map_some', disciplined_append, disciplined_lastData_reads t1 h1]
    rfl
  · rw [releases, hp]
    rfl
  · rw [accesses, hl]
    simp only [Option.map_some', disciplined_append, disciplined_lastData_reads t2 h2]
    rfl
  · rw [releases, hl]
    rfl
  · rw [accesses, hc]
    simp only [Option.map_some', disciplined_append, disciplined_lastData_reads t3 h3]
    rfl
  · rw [releases, hc]
    rfl

/-- C10: `Properties` breaks the lock discipline the other methods keep. On the sample
sensor its only access to guarded memory takes the address of `prop` with the mutex not
held; the pointer it returns shows the unsupported flags before the next delivery and
the supported flags after it, so the caller holds a reference into guarded memory and
not a copy; `Position` and the TPV filter on the same sensor keep the discipline. -/
theorem Properties_bypasses_mutex :
    accesses (Properties none) sampleSensor = some [⟨AccessKind.addr, Field.prop, false⟩] ∧
    (accesses (Properties none) sampleSensor).map disciplined = some false ∧
    (∃ p, result (Properties none) sampleSensor = some (p, GoError.nil) ∧
      after (tpvFilter 0 sampleReport) sampleSensor = some sampleSensor1 ∧
      p.load sampleSensor = some movementsensor.Properties.zero ∧
      p.load sampleSensor1 = some allSupported) ∧
    (accesses (Position sampleEnv 0 none) sampleSensor).map disciplined = some true ∧
    (accesses (tpvFilter 0 sampleReport) sampleSensor).map disciplined = some true :=
  ⟨rfl, rfl, ⟨PropertiesPtr.sensorProp, rfl, rfl, rfl, rfl⟩, rfl, rfl⟩

/-! ## Construction -/

/-- C4: when the dial fails, `start` returns the connection error but the constructor
drops it: `newMovementSensor` returns a sensor (with a nil session) and a nil error. -/
theorem newMovementSensor_drops_dial_error :
    (start (Except.error "connection refused")
        { name := "gps", prop := movementsensor.Properties.zero, session := none,
          lastData := time.zeroTime, tpv := gpsd.TPVReport.zero }).2 =
      GoError.errorf "Failed to connect to GPSD: connection refused" ∧
    newMovementSensor "gps" (Except.error "connection refused") =
      (some { name := "gps", prop := movementsensor.Properties.zero, session := none,
              lastData := time.zeroTime, tpv := gpsd.TPVReport.zero },
        GoError.nil) := by
  decide

/-! ## The scenarios, evaluated -/

/-- Within a minute of the delivery `Position` returns the point (37.0, -122.0), the
altitude 10.0 and a nil error. -/
theorem scenario_position_fresh :
    result (Position sampleEnv 30000000000 none) sampleSensor1 =
      some (⟨⟨0x4042800000000000⟩, ⟨0xC05E800000000000⟩⟩, ⟨0x4024000000000000⟩,
        GoError.nil) := by
  decide

/-- With the capture flag, 61 seconds after the delivery, `Position` returns the same
point and altitude and the sentinel. -/
theorem scenario_position_stale_capture :
    result (Position sampleEnv 61000000000 captureExtra) sampleSensor1 =
      some (⟨⟨0x4042800000000000⟩, ⟨0xC05E800000000000⟩⟩, ⟨0x4024000000000000⟩,
        GoError.ErrNoCaptureToStore) := by
  decide

/-- Without the flag, 61 seconds after the delivery, `Position` returns the same point
and altitude and the descriptive error. -/
theorem scenario_position_stale :
    result (Position sampleEnv 61000000000 none) sampleSensor1 =
      some (⟨⟨0x4042800000000000⟩, ⟨0xC05E800000000000⟩⟩, ⟨0x4024000000000000⟩,
        GoError.errorf "lastUpdate update too old: 0 (map[])") := by
  decide

end viamgpsd
